import Mathlib

/-!
Verification of the contact-scraper application (`src/app.py`).

The app is a single request/normalize/render flow: validate a URL input,
fetch JSON from a remote contact-extraction API, classify error shapes,
and render the returned mapping's known categories.  We embed the Python
code shallowly: JSON values become an inductive `Json`, Python truthiness
becomes `truthy`, the network is an explicit `NetOutcome` input, handled
`st.error` reports become an `ErrMsg` value, and an uncaught Python
exception becomes the `Except.error` branch of the result.
-/

set_option autoImplicit false

/-- A parsed JSON document, as produced by `response.json()`.  Objects keep
their key/value pairs in order; lookup takes the first match. -/
inductive Json where
  | null
  | bool (b : Bool)
  | num (n : Int)
  | str (s : String)
  | arr (elems : List Json)
  | obj (fields : List (String × Json))


/-- First-match lookup in an association list, as Python dict lookup
(dicts parsed from JSON have unique keys; first match is the value). -/
def lookupKey {α : Type} : List (String × α) → String → Option α
  | [], _ => none
  | (k, v) :: rest, key => if k == key then some v else lookupKey rest key

/-- Python truthiness (`if x:`) on JSON values: `None`, `False`, `0`, `""`,
`[]` and `\x7b\x7d` are falsy, everything else truthy. -/
def truthy : Json → Bool
  | .null => false
  | .bool b => b
  | .num n => n != 0
  | .str s => !(s == "")
  | .arr elems => !elems.isEmpty
  | .obj fields => !fields.isEmpty

/-- The only uncaught Python exception the embedded code can raise:
calling `.get` on a value that is not a dict. -/
inductive PyErr where
  | attributeError


/-- A user-visible `st.error` report, one constructor per handled branch
of `scrape_contacts`. -/
inductive ErrMsg where
  | validation
  | missingKey
  | apiError (message : Json)
  | httpError (status : Nat)
  | connError
  | timeoutError
  | reqExn
  | decodeError


/-- What the single `requests.get` call produces: a transport-level
exception, or a response with a status code and a body whose JSON parse
either fails (`JSONDecodeError`) or yields a `Json` value. -/
inductive NetOutcome where
  | connError
  | timeout
  | reqExn
  | resp (status : Nat) (body : Except Unit Json)


/-- The observable outcome of one `scrape_contacts` call: the Python
return value (`none` models Python `None`) or an uncaught exception, the
`st.error` message emitted on a handled failure, and whether the HTTP
request was issued. -/
structure ScrapeOut where
  result : Except PyErr (Option Json)
  errMsg : Option ErrMsg
  networkCalled : Bool


/-- Python `str.startswith`, character by character over the code points
of the two strings. -/
def pyStartsWith (u p : String) : Bool :=
  p.data.isPrefixOf u.data

/-- Line 29 of `app.py`: `not url_to_scrape or not
url_to_scrape.startswith(("http://", "https://"))`, negated — the input
is accepted when it is truthy and carries a recognized scheme. -/
def validUrlInput (u : String) : Bool :=
  !(u == "") && (pyStartsWith u ("http://") || pyStartsWith u ("https://"))

/-- The `data.get("status") == "ERROR"` test of line 59: true exactly when
the looked-up value is the string `"ERROR"`. -/
def isErrorSentinel : Option Json → Bool
  | some (.str s) => s == "ERROR"
  | _ => false

/-- Shallow embedding of `scrape_contacts` (`app.py` lines 25–77).  The
API key (`st.secrets["RAPIDAPI_KEY"]`) is `none` when the secret is
missing (`KeyError`); the network interaction is the `net` argument. -/
def scrape_contacts (url : String) (apiKey : Option String) (net : NetOutcome) : ScrapeOut :=
  if !validUrlInput url then
    ⟨.ok none, some .validation, false⟩
  else
    match apiKey with
    | none => ⟨.ok none, some .missingKey, false⟩
    | some _ =>
      match net with
      | .connError => ⟨.ok none, some .connError, true⟩
      | .timeout => ⟨.ok none, some .timeoutError, true⟩
      | .reqExn => ⟨.ok none, some .reqExn, true⟩
      | .resp status body =>
        if 400 ≤ status ∧ status < 600 then
          ⟨.ok none, some (.httpError status), true⟩
        else
          match body with
          | .error _ => ⟨.ok none, some .decodeError, true⟩
          | .ok data =>
            match data with
            | .obj fields =>
              if isErrorSentinel (lookupKey fields ("status"))
                  || (lookupKey fields ("error")).isSome then
                match (lookupKey fields ("error")).getD (.obj []) with
                | .obj errFields =>
                  ⟨.ok none,
                   some (.apiError ((lookupKey errFields ("message")).getD
                     (.str ("Unknown API Error")))),
                   true⟩
                | _ => ⟨.error .attributeError, none, true⟩
              else
                ⟨.ok (some ((lookupKey fields ("data")).getD data)), none, true⟩
            | _ => ⟨.error .attributeError, none, true⟩

/-- The `if result_data:` branch of line 91: the success path is taken
exactly when `scrape_contacts` returned a truthy value. -/
def appShowsSuccess (o : ScrapeOut) : Bool :=
  match o.result with
  | .ok (some j) => truthy j
  | _ => false

/-- The `else: st.warning(...)` branch of line 131: taken when
`scrape_contacts` returned normally with a falsy value. -/
def appShowsWarning (o : ScrapeOut) : Bool :=
  match o.result with
  | .ok none => true
  | .ok (some j) => !truthy j
  | .error _ => false

/-- Python `x or y` on JSON values (line 107, 114, 118, 122 of `app.py`):
the left operand when truthy, otherwise the right operand. -/
def pyOr (a b : Json) : Json :=
  if truthy a then a else b

/-- `result_data.get(k)` on a mapping: the stored value, or `None`
(modelled as `Json.null`) when the key is absent. -/
def getKD (fields : List (String × Json)) (k : String) : Json :=
  (lookupKey fields k).getD .null

mutual

/-- Python `json.dumps` (line 107 of `app.py`), used only as a last-resort
display form for a mapping item; string escaping is elided. -/
def jsonDumps : Json → String
  | .null => "null"
  | .bool true => "true"
  | .bool false => "false"
  | .num n => toString n
  | .str s => "\"" ++ s ++ "\""
  | .arr elems => "[" ++ dumpsElems elems ++ "]"
  | .obj fields => "\x7b" ++ dumpsFields fields ++ "\x7d"

/-- Comma-separated dump of array elements. -/
def dumpsElems : List Json → String
  | [] => ""
  | [j] => jsonDumps j
  | j :: rest => jsonDumps j ++ ", " ++ dumpsElems rest

/-- Comma-separated dump of object fields. -/
def dumpsFields : List (String × Json) → String
  | [] => ""
  | [(k, v)] => "\"" ++ k ++ "\": " ++ jsonDumps v
  | (k, v) :: rest => "\"" ++ k ++ "\": " ++ jsonDumps v ++ ", " ++ dumpsFields rest

end

/-- One loop iteration of `display_list_data` (lines 101–108): a string
item is shown verbatim; a mapping item is shown as `item.get('url') or
item.get('value') or json.dumps(item)`; any other item renders nothing. -/
def renderItem (item : Json) : Option Json :=
  match item with
  | .str s => some (.str s)
  | .obj fields =>
    some (pyOr (getKD fields ("url"))
      (pyOr (getKD fields ("value")) (.str (jsonDumps (.obj fields)))))
  | _ => none

/-- What `display_list_data` (lines 98–111) emits for one category: the
count header plus the per-item renderings, or the `No ... found.` notice. -/
inductive DisplayOut where
  | listShown (count : Nat) (items : List (Option Json))
  | noneFound

/-- `display_list_data` (lines 98–111): shows the list when the value is
truthy and actually a list, otherwise reports `No ... found.`. -/
def display_list_data (dataList : Json) : DisplayOut :=
  if truthy dataList then
    match dataList with
    | .arr elems => .listShown elems.length (elems.map renderItem)
    | _ => .noneFound
  else .noneFound

/-- One category block of the main logic (lines 114–123):
`result_data.get(k1) or result_data.get(k2)` fed to `display_list_data`. -/
def displayCategory (fields : List (String × Json)) (k1 k2 : String) : DisplayOut :=
  display_list_data (pyOr (getKD fields k1) (getKD fields k2))

/-- `result_data.get(k)` as executed on an arbitrary value: Python raises
`AttributeError` when the receiver is not a dict; a dict read returns the
value (or `None`) and the receiver exactly as it was. -/
def dictGetSt (d : Json) (k : String) : Except PyErr (Json × Json) :=
  match d with
  | .obj fields => .ok ((lookupKey fields k).getD .null, d)
  | _ => .error .attributeError

/-- `result_data.items()` iteration (line 126): the field list, with the
receiver unchanged; raises `AttributeError` on a non-dict. -/
def dictItemsSt (d : Json) : Except PyErr (List (String × Json) × Json) :=
  match d with
  | .obj fields => .ok (fields, d)
  | _ => .error .attributeError

/-- The keys excluded from the residual `Other Data Fields` block
(line 126 of `app.py`). -/
def knownKeys : List String :=
  ["emails", "email", "phoneNumbers", "phone", "socialLinks", "social_media"]

/-- Everything the success branch of the main logic renders. -/
structure RenderedPage where
  emails : DisplayOut
  phones : DisplayOut
  socials : DisplayOut
  otherShown : Bool
  otherFields : List (String × Json)

/-- The whole display pass of the success branch (lines 94–129), threading
the result mapping through every read so that the state it leaves behind
is explicit. -/
def renderResultSt (d : Json) : Except PyErr (RenderedPage × Json) := do
  let (e1, d) ← dictGetSt d ("emails")
  let (e2, d) ← dictGetSt d ("email")
  let emailsOut := display_list_data (pyOr e1 e2)
  let (p1, d) ← dictGetSt d ("phoneNumbers")
  let (p2, d) ← dictGetSt d ("phone")
  let phonesOut := display_list_data (pyOr p1 p2)
  let (s1, d) ← dictGetSt d ("socialLinks")
  let (s2, d) ← dictGetSt d ("social_media")
  let socialsOut := display_list_data (pyOr s1 s2)
  let (fieldItems, d) ← dictItemsSt d
  let residual := fieldItems.filter (fun kv => !(knownKeys.contains kv.fst))
  pure (⟨emailsOut, phonesOut, socialsOut, !residual.isEmpty, residual⟩, d)

/-- Modelled from the spec: reading a key of one scanned-pages entry in the
second app variant, whose source file is absent from the repository; per
the spec an entry is a mapping with optional url and snippet/text fields,
and an absent key yields no value. -/
def getJ (p : Json) (k : String) : Json :=
  match p with
  | .obj fields => getKD fields k
  | _ => .null

/-- Modelled from the spec: the snippet text of a scanned-pages entry,
first present of the `snippet`/`text` alternate keys; non-string values
render as empty text. -/
def snippetOf (p : Json) : String :=
  match pyOr (getJ p ("snippet")) (getJ p ("text")) with
  | .str s => s
  | _ => ""

/-- Modelled from the spec: snippet truncation in the second app variant —
a snippet longer than 300 characters is cut to its first 300 characters
followed by an ellipsis marker; shorter snippets pass through verbatim. -/
def truncateSnippet (s : String) : String :=
  if 300 < s.length then s.take 300 ++ ("...") else s

/-- Modelled from the spec: one rendered scanned-pages entry — a page URL
chosen as the first present of two alternate key names, and the truncated
snippet. -/
structure PageEntry where
  pageUrl : Json
  snippet : String

/-- Modelled from the spec: rendering one scanned-pages entry. -/
def pageFromJson (p : Json) : PageEntry :=
  ⟨pyOr (getJ p ("url")) (getJ p ("link")), truncateSnippet (snippetOf p)⟩

/-- Modelled from the spec: the scanned-pages section of the second app
variant renders up to the first 20 entries of the `pages`/`results`
list. -/
def renderPages (pages : List Json) : List PageEntry :=
  (pages.take 20).map pageFromJson

/-- The `st.cache_data` decorator on `scrape_contacts` (line 24):
results are memoized per argument value; a cache hit returns the stored
return value without running the function (hence without touching the
network); a normal return is stored, an uncaught exception is not. -/
def memoScrape (cache : List (String × Option Json)) (url : String)
    (apiKey : Option String) (net : NetOutcome) :
    Except PyErr (Option Json) × List (String × Option Json) × Bool :=
  match lookupKey cache url with
  | some v => (.ok v, cache, false)
  | none =>
    let out := scrape_contacts url apiKey net
    match out.result with
    | .ok v => (.ok v, (url, v) :: cache, out.networkCalled)
    | .error e => (.error e, cache, out.networkCalled)

/-- A value that is not a JSON array is never shown as a list:
`display_list_data` falls through to the `No ... found.` notice. -/
theorem display_list_data_not_arr (v : Json) (h : ∀ elems, v ≠ Json.arr elems) :
    display_list_data v = DisplayOut.noneFound := by
  cases v with
  | arr elems => exact absurd rfl (h elems)
  | null => simp [display_list_data]
  | bool b => simp [display_list_data]
  | num n => simp [display_list_data]
  | str s => simp [display_list_data]
  | obj fields => simp [display_list_data]

/-- A non-empty JSON array is truthy and shown with its length and its
item renderings. -/
theorem display_list_data_cons (a : Json) (l : List Json) :
    display_list_data (Json.arr (a :: l))
      = DisplayOut.listShown (a :: l).length ((a :: l).map renderItem) := by
  simp [display_list_data, truthy]

/-- A falsy value (absent key, empty list, empty string, ...) always
yields the `No ... found.` notice. -/
theorem display_list_data_falsy (v : Json) (h : truthy v = false) :
    display_list_data v = DisplayOut.noneFound := by
  cases v <;> simp_all [display_list_data, truthy]

/-- Claim C1 (code bug): on a 2xx response whose body is the spec's own
example `\x7b"error": "X"\x7d`, `scrape_contacts` raises an uncaught
`AttributeError` while building the message (line 60 calls `.get` on the
string `"X"`): no `RemoteApiError`-style `st.error` is shown and `None`
is never returned.  When the `error` field is a mapping, the intended
classification does happen (second conjunct). -/
theorem c1_error_string_body_uncaught :
    scrape_contacts ("https://example.com") (some ("k"))
        (.resp 200 (.ok (.obj [(("error"), .str ("X"))])))
      = ⟨.error .attributeError, none, true⟩
  ∧ scrape_contacts ("https://example.com") (some ("k"))
        (.resp 200 (.ok (.obj [(("error"), .obj [(("message"), .str ("X"))])])))
      = ⟨.ok none, some (.apiError (.str ("X"))), true⟩ :=
  ⟨rfl, rfl⟩

/-- Claim C2: for an empty input string, `scrape_contacts` reports the
validation error and returns `None` before touching the credentials or
the network — no HTTP request is issued, whatever they would be. -/
theorem c2_empty_input_validation_no_network (apiKey : Option String) (net : NetOutcome) :
    scrape_contacts ("") apiKey net = ⟨.ok none, some .validation, false⟩ := rfl

/-- Claim C3: for every scheme-prefixed non-empty input, a missing
`RAPIDAPI_KEY` secret makes `scrape_contacts` report the configuration
error and return `None` with no network request issued, whatever the
network would have answered. -/
theorem c3_missing_credentials_short_circuit (url : String) (net : NetOutcome)
    (h : validUrlInput url = true) :
    scrape_contacts url none net = ⟨.ok none, some .missingKey, false⟩ := by
  simp [scrape_contacts, h]

theorem c3_missing_credentials_short_circuit_witness :
    validUrlInput ("https://example.com") = true
  ∧ scrape_contacts ("https://example.com") none NetOutcome.connError
      = ⟨.ok none, some .missingKey, false⟩ :=
  ⟨by decide,
   c3_missing_credentials_short_circuit ("https://example.com") NetOutcome.connError (by decide)⟩

/-- Claim C4 (amended): for every 4xx or 5xx response, `scrape_contacts`
reports an HTTP error carrying the status and returns `None`, uniformly
in the body — the body is never parsed and no success is rendered.  (The
original claim said every non-2xx status; `raise_for_status` only raises
for 400–599.) -/
theorem c4_http_error_on_4xx_5xx (url k : String) (status : Nat)
    (body : Except Unit Json) (hv : validUrlInput url = true)
    (h4 : 400 ≤ status) (h6 : status < 600) :
    scrape_contacts url (some k) (.resp status body)
      = ⟨.ok none, some (.httpError status), true⟩ := by
  simp [scrape_contacts, hv, h4, h6]

theorem c4_http_error_on_4xx_5xx_witness :
    validUrlInput ("https://example.com") = true ∧ 400 ≤ 404 ∧ 404 < 600
  ∧ scrape_contacts ("https://example.com") (some ("k")) (.resp 404 (.error ()))
      = ⟨.ok none, some (.httpError 404), true⟩ :=
  ⟨by decide, by decide, by decide,
   c4_http_error_on_4xx_5xx ("https://example.com") ("k") 404 (.error ())
     (by decide) (by decide) (by decide)⟩

/-- Claim C4 counterexample: a 304 response is non-2xx, yet
`raise_for_status` does not fire for it — the code parses the body and
renders it as a success, with no HTTP error reported. -/
theorem c4_counterexample_304_rendered_as_success :
    scrape_contacts ("https://example.com") (some ("k"))
        (.resp 304 (.ok (.obj [(("emails"), .arr [.str ("a@b.c")])])))
      = ⟨.ok (some (.obj [(("emails"), .arr [.str ("a@b.c")])])), none, true⟩
  ∧ appShowsSuccess (scrape_contacts ("https://example.com") (some ("k"))
        (.resp 304 (.ok (.obj [(("emails"), .arr [.str ("a@b.c")])])))) = true :=
  ⟨rfl, rfl⟩

/-- Claim C5 (amended): each category block shows the first alternate key
whose value is truthy — a present-but-empty primary falls through to the
later alternate — and reports `No ... found.` exactly when no alternate
is truthy or the selected value is not a list. -/
theorem c5_category_first_truthy (fields : List (String × Json)) (k1 k2 : String) :
    (∀ elems, getKD fields k1 = Json.arr elems → elems ≠ [] →
      displayCategory fields k1 k2
        = DisplayOut.listShown elems.length (elems.map renderItem))
  ∧ (truthy (getKD fields k1) = false →
      displayCategory fields k1 k2 = display_list_data (getKD fields k2))
  ∧ (∀ elems, truthy (getKD fields k1) = false → getKD fields k2 = Json.arr elems →
      elems ≠ [] →
      displayCategory fields k1 k2
        = DisplayOut.listShown elems.length (elems.map renderItem))
  ∧ (truthy (getKD fields k1) = false → truthy (getKD fields k2) = false →
      displayCategory fields k1 k2 = DisplayOut.noneFound)
  ∧ (∀ v, getKD fields k1 = v → truthy v = true → (∀ elems, v ≠ Json.arr elems) →
      displayCategory fields k1 k2 = DisplayOut.noneFound) := by
  refine ⟨?_, ?_, ?_, ?_, ?_⟩
  · intro elems h hne
    cases elems with
    | nil => exact absurd rfl hne
    | cons a l =>
      rw [displayCategory, h]
      rw [show pyOr (Json.arr (a :: l)) (getKD fields k2) = Json.arr (a :: l) from by
        simp [pyOr, truthy]]
      exact display_list_data_cons a l
  · intro h
    simp [displayCategory, pyOr, h]
  · intro elems h1 h2 hne
    cases elems with
    | nil => exact absurd rfl hne
    | cons a l =>
      rw [displayCategory]
      rw [show pyOr (getKD fields k1) (getKD fields k2) = getKD fields k2 from by
        simp [pyOr, h1]]
      rw [h2]
      exact display_list_data_cons a l
  · intro h1 h2
    rw [displayCategory]
    rw [show pyOr (getKD fields k1) (getKD fields k2) = getKD fields k2 from by
      simp [pyOr, h1]]
    exact display_list_data_falsy _ h2
  · intro v hv htr hnot
    rw [displayCategory, hv]
    rw [show pyOr v (getKD fields k2) = v from by simp [pyOr, htr]]
    exact display_list_data_not_arr v hnot

theorem c5_category_first_truthy_witness :
    displayCategory [(("emails"), Json.arr [Json.str ("a")])] ("emails") ("email")
      = DisplayOut.listShown 1 [some (Json.str ("a"))]
  ∧ displayCategory [(("emails"), Json.arr []), (("email"), Json.arr [Json.str ("b")])]
        ("emails") ("email")
      = DisplayOut.listShown 1 [some (Json.str ("b"))]
  ∧ displayCategory [] ("emails") ("email") = DisplayOut.noneFound
  ∧ displayCategory [(("emails"), Json.str ("x"))] ("emails") ("email")
      = DisplayOut.noneFound :=
  ⟨(c5_category_first_truthy [(("emails"), Json.arr [Json.str ("a")])]
      ("emails") ("email")).1 [Json.str ("a")] rfl (by simp),
   (c5_category_first_truthy [(("emails"), Json.arr []), (("email"), Json.arr [Json.str ("b")])]
      ("emails") ("email")).2.2.1 [Json.str ("b")] rfl rfl (by simp),
   (c5_category_first_truthy [] ("emails") ("email")).2.2.2.1 rfl rfl,
   (c5_category_first_truthy [(("emails"), Json.str ("x"))]
      ("emails") ("email")).2.2.2.2 (Json.str ("x")) rfl rfl
     (fun elems h => Json.noConfusion h)⟩

/-- Claim C5 counterexample: with body
`\x7b"emails": [], "email": ["a@b.c"]\x7d` the primary key is present but
empty, and the code renders the later alternate's entry instead of the
`No ... found.` notice the claim requires. -/
theorem c5_counterexample_empty_primary_falls_through :
    displayCategory [(("emails"), Json.arr []), (("email"), Json.arr [Json.str ("a@b.c")])]
        ("emails") ("email")
      = DisplayOut.listShown 1 [some (Json.str ("a@b.c"))]
  ∧ displayCategory [(("emails"), Json.arr []), (("email"), Json.arr [Json.str ("a@b.c")])]
        ("emails") ("email")
      ≠ DisplayOut.noneFound :=
  ⟨rfl, fun h => DisplayOut.noConfusion h⟩

/-- Claim C6 (amended): when `emails` is absent and the singular `email`
field holds a non-empty list, the renderer uses the singular field and
shows its entries. -/
theorem c6_singular_email_fallback (fields : List (String × Json)) (elems : List Json)
    (habs : lookupKey fields ("emails") = none)
    (hsing : lookupKey fields ("email") = some (Json.arr elems))
    (hne : elems ≠ []) :
    displayCategory fields ("emails") ("email")
      = DisplayOut.listShown elems.length (elems.map renderItem) := by
  cases elems with
  | nil => exact absurd rfl hne
  | cons a l =>
    rw [displayCategory]
    rw [show pyOr (getKD fields ("emails")) (getKD fields ("email")) = Json.arr (a :: l) from by
      simp [pyOr, getKD, habs, hsing, truthy]]
    exact display_list_data_cons a l

theorem c6_singular_email_fallback_witness :
    displayCategory [(("email"), Json.arr [Json.str ("x@y.z")])] ("emails") ("email")
      = DisplayOut.listShown 1 [some (Json.str ("x@y.z"))] :=
  c6_singular_email_fallback [(("email"), Json.arr [Json.str ("x@y.z")])]
    [Json.str ("x@y.z")] rfl rfl (by simp)

/-- Claim C6 counterexample: with body `\x7b"email": []\x7d` the `emails`
field is absent and `email` holds a list, yet the renderer reports
`No ... found.` instead of using the singular field's entries. -/
theorem c6_counterexample_empty_singular_list :
    displayCategory [(("email"), Json.arr [])] ("emails") ("email")
      = DisplayOut.noneFound := rfl

/-- Claim C7: the scanned-pages section renders at most the first 20
entries, in order; a snippet longer than 300 characters is rendered as
exactly its first 300 characters followed by the ellipsis marker, and a
snippet of at most 300 characters passes through verbatim. -/
theorem c7_pages_truncation (pages : List Json) (s : String) :
    (renderPages pages).length ≤ 20
  ∧ (∀ i, i < 20 → (renderPages pages)[i]? = (pages[i]?).map pageFromJson)
  ∧ (300 < s.length → truncateSnippet s = s.take 300 ++ ("..."))
  ∧ (s.length ≤ 300 → truncateSnippet s = s) := by
  refine ⟨?_, ?_, ?_, ?_⟩
  · simp [renderPages]
  · intro i hi
    simp [renderPages, List.getElem?_take, hi]
  · intro h
    simp [truncateSnippet, h]
  · intro h
    simp [truncateSnippet, show ¬(300 < s.length) from by omega]

set_option maxRecDepth 4000 in
theorem c7_pages_truncation_witness :
    (300 < (String.mk (List.replicate 301 ('a'))).length
      ∧ truncateSnippet (String.mk (List.replicate 301 ('a')))
          = (String.mk (List.replicate 301 ('a'))).take 300 ++ ("..."))
  ∧ (("ab").length ≤ 300 ∧ truncateSnippet ("ab") = ("ab"))
  ∧ (0 < 20 ∧ (renderPages [Json.null])[0]? = ([Json.null][0]?).map pageFromJson) :=
  ⟨⟨by decide, (c7_pages_truncation [] (String.mk (List.replicate 301 ('a')))).2.2.1 (by decide)⟩,
   ⟨by decide, (c7_pages_truncation [] ("ab")).2.2.2 (by decide)⟩,
   ⟨by decide, (c7_pages_truncation [Json.null] ("")).2.1 0 (by decide)⟩⟩

/-- Claim C8: once a call for a given URL has returned normally, a second
call with the identical URL is a cache hit — it returns the identical
stored value, leaves the cache unchanged, and issues no network request,
whatever credentials or network conditions now hold. -/
theorem c8_memo_second_call_hit (cache cacheAfter : List (String × Option Json))
    (url : String) (apiKey : Option String) (net : NetOutcome)
    (v : Option Json) (issued : Bool)
    (h : memoScrape cache url apiKey net = (.ok v, cacheAfter, issued)) :
    ∀ apiKey2 net2, memoScrape cacheAfter url apiKey2 net2 = (.ok v, cacheAfter, false) := by
  intro apiKey2 net2
  rw [memoScrape] at h
  cases hl : lookupKey cache url with
  | some w =>
    rw [hl] at h
    simp only [Prod.mk.injEq, Except.ok.injEq] at h
    obtain ⟨h1, h2, h3⟩ := h
    subst h1 h2
    rw [memoScrape, hl]
  | none =>
    rw [hl] at h
    simp only at h
    cases hr : (scrape_contacts url apiKey net).result with
    | ok w =>
      rw [hr] at h
      simp only [Prod.mk.injEq, Except.ok.injEq] at h
      obtain ⟨h1, h2, h3⟩ := h
      subst h1 h2
      rw [memoScrape]
      simp [lookupKey]
    | error e =>
      rw [hr] at h
      simp at h

theorem c8_memo_second_call_hit_witness :
    memoScrape [] ("https://a.com") (some ("k"))
        (.resp 200 (.ok (Json.obj [(("emails"), Json.arr [Json.str ("x")])])))
      = (.ok (some (Json.obj [(("emails"), Json.arr [Json.str ("x")])])),
         [(("https://a.com"), some (Json.obj [(("emails"), Json.arr [Json.str ("x")])]))],
         true)
  ∧ memoScrape
        [(("https://a.com"), some (Json.obj [(("emails"), Json.arr [Json.str ("x")])]))]
        ("https://a.com") none NetOutcome.connError
      = (.ok (some (Json.obj [(("emails"), Json.arr [Json.str ("x")])])),
         [(("https://a.com"), some (Json.obj [(("emails"), Json.arr [Json.str ("x")])]))],
         false) :=
  ⟨rfl,
   c8_memo_second_call_hit [] _ ("https://a.com") (some ("k"))
     (.resp 200 (.ok (Json.obj [(("emails"), Json.arr [Json.str ("x")])]))) _ true rfl
     none NetOutcome.connError⟩

/-- Claim C9: the display pass never fails on a mapping and leaves the
mapping it read exactly as it found it — every read threads the result
mapping through unchanged. -/
theorem c9_render_pass_total_no_mutation (fields : List (String × Json)) :
    ∃ page, renderResultSt (Json.obj fields) = .ok (page, Json.obj fields) :=
  ⟨_, rfl⟩

/-- Claim C10: a call that succeeds (2xx, parsed mapping, no error shape)
but returns a falsy value — an empty mapping, or a falsy `data` field —
drives the app into the warning branch, not the success branch: at the
user interface it is indistinguishable from an error. -/
theorem c10_falsy_success_takes_warning (fields : List (String × Json)) (status : Nat)
    (h2a : 200 ≤ status) (h2b : status < 300)
    (hns : isErrorSentinel (lookupKey fields ("status")) = false)
    (hne : lookupKey fields ("error") = none)
    (hfal : truthy ((lookupKey fields ("data")).getD (Json.obj fields)) = false) :
    scrape_contacts ("https://example.com") (some ("k"))
        (.resp status (.ok (Json.obj fields)))
      = ⟨.ok (some ((lookupKey fields ("data")).getD (Json.obj fields))), none, true⟩
  ∧ appShowsWarning (scrape_contacts ("https://example.com") (some ("k"))
        (.resp status (.ok (Json.obj fields)))) = true
  ∧ appShowsSuccess (scrape_contacts ("https://example.com") (some ("k"))
        (.resp status (.ok (Json.obj fields)))) = false := by
  have hv : validUrlInput ("https://example.com") = true := by decide
  have hcond : ¬(400 ≤ status ∧ status < 600) := by omega
  have hmain : scrape_contacts ("https://example.com") (some ("k"))
      (.resp status (.ok (Json.obj fields)))
    = ⟨.ok (some ((lookupKey fields ("data")).getD (Json.obj fields))), none, true⟩ := by
    simp [scrape_contacts, hv, hcond, hns, hne]
  refine ⟨hmain, ?_, ?_⟩
  · rw [hmain]
    simp [appShowsWarning, hfal]
  · rw [hmain]
    simp [appShowsSuccess, hfal]

theorem c10_falsy_success_takes_warning_witness :
    (200 ≤ 200 ∧ 200 < 300)
  ∧ (scrape_contacts ("https://example.com") (some ("k"))
        (.resp 200 (.ok (Json.obj [(("data"), Json.arr [])])))
      = ⟨.ok (some (Json.arr [])), none, true⟩
    ∧ appShowsWarning (scrape_contacts ("https://example.com") (some ("k"))
        (.resp 200 (.ok (Json.obj [(("data"), Json.arr [])])))) = true
    ∧ appShowsSuccess (scrape_contacts ("https://example.com") (some ("k"))
        (.resp 200 (.ok (Json.obj [(("data"), Json.arr [])])))) = false) :=
  ⟨⟨by decide, by decide⟩,
   c10_falsy_success_takes_warning [(("data"), Json.arr [])] 200
     (by decide) (by decide) rfl rfl rfl⟩
